import Mathlib

/-!
Shallow embedding of the identity/session core of the DF-Backend repository:
the auth service (register, login, Google SSO, token refresh, logout) from
src/services/auth.service.ts and the auth repository
(src/repositories/auth.repository.ts) over the Prisma-backed tables
users / user_credentials / oauth_accounts / sessions.

Modelling conventions:
- Time is a Nat of milliseconds since the epoch (JS Date.getTime()).
- The persistence backend is an explicit record of lists (Db); each repository
  function is a pure function over it.  Prisma `update`/`create` calls that
  would throw when the row is absent (or a unique constraint is violated) are
  modelled as Option-returning functions; the service surfaces that case as an
  internal (non-auth) failure, matching an uncaught Prisma exception.
- bcrypt.compare / bcrypt.hash are external collaborators; the flows take the
  comparison (and hashing) function as an argument.
- JWTs are modelled symbolically: a signed token records its claims, iat, exp
  and the secret it was signed with; verification checks the secret and expiry.
  Lifetime strings are parsed by parseDurationMs exactly as in the source; the
  `ms` library used by jsonwebtoken agrees with it on the `\d+[smhd]` shapes.
- User rows carry the fields the auth flows read or write; columns the flows
  only copy through unchanged (phone, kycStatus, timestamps, MFA fields) are
  omitted from the record as they affect no branch.
-/

namespace DFBackend

/-- Prisma enum UserRole. -/
inductive UserRole
  | TRADER
  | SUPPORT
  | ADMIN
deriving DecidableEq, Repr

/-- Prisma enum UserStatus. -/
inductive UserStatus
  | PENDING_VERIFICATION
  | ACTIVE
  | SUSPENDED
  | BANNED
deriving DecidableEq, Repr

/-- A users row (auth-relevant columns). -/
structure User where
  id : String
  email : String
  firstName : String
  lastName : String
  role : UserRole
  status : UserStatus
  emailVerified : Bool
  lastLoginAt : Option Nat
  lastLoginIp : Option String
deriving DecidableEq, Repr

/-- A user_credentials row (auth-relevant columns). -/
structure Credential where
  passwordHash : String
  failedAttempts : Nat
  lockedUntil : Option Nat
deriving DecidableEq, Repr

/-- An oauth_accounts row (auth-relevant columns). -/
structure OAuthAccount where
  userId : String
  provider : String
  providerId : String
deriving DecidableEq, Repr

/-- jwt config section (config.jwt). -/
structure JwtConfig where
  secret : String
  expiresIn : String
  refreshExpiresIn : String
deriving DecidableEq, Repr

/-- The configuration slice the auth service reads. -/
structure Config where
  jwt : JwtConfig
deriving DecidableEq, Repr

-- ---------------------------------------------------------------------------
-- Duration parsing (auth.service.ts parseDurationMs)
-- ---------------------------------------------------------------------------

/-- Value of a list of decimal digit characters (JS parseInt base 10 on an
all-digit string). -/
def digitsToNat (ds : List Char) : Nat :=
  ds.foldl (fun acc c => acc * 10 + (c.toNat - '0'.toNat)) 0

/-- The regex match `^(\d+)([smhd])$` of parseDurationMs: splits the string
into a nonempty digit prefix and a one-character unit suffix, or fails. -/
def matchDuration (cs : List Char) : Option (List Char × Char) :=
  match cs.getLast? with
  | none => none
  | some u =>
    if cs.dropLast ≠ [] ∧ cs.dropLast.all Char.isDigit ∧
        (u = 's' ∨ u = 'm' ∨ u = 'h' ∨ u = 'd') then
      some (cs.dropLast, u)
    else
      none

/-- Parse a duration string (e.g. "30d") to milliseconds; on no match returns
the 30-day default (auth.service.ts parseDurationMs). -/
def parseDurationMs (duration : String) : Nat :=
  match matchDuration duration.toList with
  | none => 30 * 24 * 60 * 60 * 1000
  | some (ds, u) =>
    let value := digitsToNat ds
    if u = 's' then value * 1000
    else if u = 'm' then value * 60 * 1000
    else if u = 'h' then value * 60 * 60 * 1000
    else if u = 'd' then value * 24 * 60 * 60 * 1000
    else 30 * 24 * 60 * 60 * 1000

-- ---------------------------------------------------------------------------
-- Symbolic JWT model (jsonwebtoken sign/verify)
-- ---------------------------------------------------------------------------

/-- The `type` claim of an issued token. -/
inductive TokenType
  | access
  | refresh
deriving DecidableEq, Repr

/-- The claims the service puts into a JWT (middleware JwtPayload without
iat/exp). -/
structure JwtClaims where
  sub : String
  email : String
  role : UserRole
  typ : TokenType
deriving DecidableEq, Repr

/-- A signed JWT, symbolically: its claims, issue/expiry instants (ms) and the
secret it was signed with. -/
structure SignedToken where
  claims : JwtClaims
  iat : Nat
  exp : Nat
  secret : String
deriving DecidableEq, Repr

/-- jwt.sign: stamp claims with iat = now and exp = now + lifetime. -/
def jwtSign (secret : String) (claims : JwtClaims) (lifetimeMs : Nat) (now : Nat) :  SignedToken :=
  { claims := claims, iat := now, exp := now + lifetimeMs, secret := secret }

/-- Outcome of jwt.verify: distinguishes TokenExpiredError from other
verification failures. -/
inductive JwtError
  | expired
  | invalid
deriving DecidableEq, Repr

/-- jwt.verify: signature (secret) check, then expiry check (expired once the
clock reaches exp). -/
def jwtVerify (secret : String) (now : Nat) (t : SignedToken) :
    Except JwtError JwtClaims :=
  if t.secret ≠ secret then .error .invalid
  else if t.exp ≤ now then .error .expired
  else .ok t.claims

/-- A sessions row.  The token column holds the serialised refresh token; in
the model it is the token itself. -/
structure Session where
  userId : String
  token : SignedToken
  ipAddress : Option String
  userAgent : Option String
  expiresAt : Nat
deriving DecidableEq, Repr

/-- The persistence backend state: the four auth tables. -/
structure Db where
  users : List User
  credentials : List (String × Credential)
  oauthAccounts : List OAuthAccount
  sessions : List Session
deriving DecidableEq, Repr

-- ---------------------------------------------------------------------------
-- Error taxonomy (utils/errors.ts classes thrown by the auth service)
-- ---------------------------------------------------------------------------

/-- The error classes the auth service throws, with the message the error
handler middleware serialises to the caller.  `internal` stands for an
uncaught persistence exception (never part of the auth taxonomy). -/
inductive AuthError
  | authentication (message : String)
  | conflict (message : String)
  | unauthorized (message : String)
  | invalidToken (message : String)
  | tokenExpired (message : String)
  | internal (message : String)
deriving DecidableEq, Repr

/-- The message carried to the caller by the error handler (err.toJSON). -/
def AuthError.message : AuthError → String
  | .authentication m => m
  | .conflict m => m
  | .unauthorized m => m
  | .invalidToken m => m
  | .tokenExpired m => m
  | .internal m => m

/-- True for the AuthenticationError class (vs token/conflict/unauthorized). -/
def AuthError.isAuthentication : AuthError → Bool
  | .authentication _ => true
  | _ => false

-- ---------------------------------------------------------------------------
-- Character-level string primitives
-- ---------------------------------------------------------------------------
-- Structural embeddings of the JS string operations the flows use
-- (toLowerCase, trim, split, join), defined over the character list.

/-- JS String.prototype.toLowerCase (per character). -/
def toLowerCase (s : String) : String :=
  String.mk (s.data.map Char.toLower)

/-- JS String.prototype.trim: strip whitespace from both ends. -/
def trimJS (s : String) : String :=
  String.mk
    (((s.data.dropWhile Char.isWhitespace).reverse.dropWhile
      Char.isWhitespace).reverse)

/-- JS String.prototype.split on a one-character separator, over chars:
always returns at least one (possibly empty) piece. -/
def splitChar (c : Char) : List Char → List (List Char)
  | [] => [[]]
  | x :: rest =>
    match splitChar c rest with
    | [] => [[]]
    | h :: t => if x = c then [] :: h :: t else (x :: h) :: t

/-- JS split on a one-character separator, as strings. -/
def jsSplit (c : Char) (s : String) : List String :=
  (splitChar c s.data).map String.mk

/-- JS Array.prototype.join with a string separator. -/
def joinWith (sep : String) (l : List String) : String :=
  String.mk (List.intercalate sep.data (l.map String.data))

-- ---------------------------------------------------------------------------
-- Repository layer (auth.repository.ts)
-- ---------------------------------------------------------------------------

/-- findUserByEmail: unique lookup on the lowercased email. -/
def findUserByEmail (db : Db) (email : String) : Option User :=
  db.users.find? (fun u => u.email == toLowerCase email)

/-- findUserByEmailWithCredentials: the user plus its (nullable) credentials
row. -/
def findUserByEmailWithCredentials (db : Db) (email : String) :
    Option (User × Option Credential) :=
  match findUserByEmail db email with
  | none => none
  | some u => some (u, (db.credentials.find? (fun p => p.1 == u.id)).map Prod.snd)

/-- findUserById. -/
def findUserById (db : Db) (id : String) : Option User :=
  db.users.find? (fun u => u.id == id)

/-- Data for createUserWithPassword (id supplied by the caller, standing for
the generated cuid). -/
structure CreateUserWithPasswordData where
  id : String
  email : String
  firstName : String
  lastName : String
  passwordHash : String
deriving DecidableEq, Repr

/-- createUserWithPassword: one transaction creating the user (role TRADER,
status PENDING_VERIFICATION, emailVerified false) and its credentials row
(failedAttempts defaults to 0, lockedUntil to null).  None when the generated
id collides (Prisma unique violation). -/
def createUserWithPassword (db : Db) (data : CreateUserWithPasswordData) :
    Option (User × Db) :=
  if (db.users.find? (fun u => u.id == data.id)).isSome then none
  else
    let newUser : User :=
      { id := data.id
        email := toLowerCase data.email
        firstName := data.firstName
        lastName := data.lastName
        role := .TRADER
        status := .PENDING_VERIFICATION
        emailVerified := false
        lastLoginAt := none
        lastLoginIp := none }
    let cred : Credential :=
      { passwordHash := data.passwordHash, failedAttempts := 0, lockedUntil := none }
    some (newUser,
      { db with
          users := db.users ++ [newUser]
          credentials := db.credentials ++ [(data.id, cred)] })

/-- Data for createOAuthUser. -/
structure CreateOAuthUserData where
  id : String
  email : String
  firstName : String
  lastName : String
  provider : String
  providerId : String
deriving DecidableEq, Repr

/-- createOAuthUser: one transaction creating the user (status ACTIVE,
emailVerified true) and its OAuthAccount row. -/
def createOAuthUser (db : Db) (data : CreateOAuthUserData) :
    Option (User × Db) :=
  if (db.users.find? (fun u => u.id == data.id)).isSome then none
  else
    let newUser : User :=
      { id := data.id
        email := toLowerCase data.email
        firstName := data.firstName
        lastName := data.lastName
        role := .TRADER
        status := .ACTIVE
        emailVerified := true
        lastLoginAt := none
        lastLoginIp := none }
    let acct : OAuthAccount :=
      { userId := data.id, provider := data.provider, providerId := data.providerId }
    some (newUser,
      { db with
          users := db.users ++ [newUser]
          oauthAccounts := db.oauthAccounts ++ [acct] })

/-- findOAuthAccount: unique lookup on (provider, providerId). -/
def findOAuthAccount (db : Db) (provider providerId : String) :
    Option OAuthAccount :=
  db.oauthAccounts.find?
    (fun a => a.provider == provider && a.providerId == providerId)

/-- linkOAuthAccount: insert an OAuthAccount row for an existing user.  None on
a (provider, providerId) unique violation. -/
def linkOAuthAccount (db : Db) (userId provider providerId : String) :
    Option Db :=
  if (findOAuthAccount db provider providerId).isSome then none
  else
    some { db with
             oauthAccounts :=
               db.oauthAccounts ++
                 [{ userId := userId, provider := provider, providerId := providerId }] }

/-- createSession: insert one sessions row.  None on a token unique
violation. -/
def createSession (db : Db) (s : Session) : Option Db :=
  if (db.sessions.find? (fun t => decide (t.token = s.token))).isSome then none
  else some { db with sessions := db.sessions ++ [s] }

/-- findSessionByToken: unique lookup on the token column. -/
def findSessionByToken (db : Db) (token : SignedToken) : Option Session :=
  db.sessions.find? (fun s => decide (s.token = token))

/-- deleteSession: remove the row with this token; the Prisma
record-not-found error is swallowed, so this is total and idempotent. -/
def deleteSession (db : Db) (token : SignedToken) : Db :=
  { db with sessions := db.sessions.filter (fun s => decide (s.token ≠ token)) }

/-- updateLastLogin: set lastLoginAt / lastLoginIp on the user row; None when
the row is absent (Prisma update throws). -/
def updateLastLogin (db : Db) (userId : String) (ipAddress : Option String)
    (now : Nat) : Option Db :=
  if (db.users.find? (fun u => u.id == userId)).isSome then
    some { db with
             users := db.users.map (fun u =>
               if u.id == userId then
                 { u with lastLoginAt := some now, lastLoginIp := ipAddress }
               else u) }
  else none

/-- incrementFailedAttempts: atomically add one to failedAttempts and return
the post-increment value; None when the credentials row is absent. -/
def incrementFailedAttempts (db : Db) (userId : String) : Option (Nat × Db) :=
  match db.credentials.find? (fun p => p.1 == userId) with
  | none => none
  | some (_, cred) =>
    some (cred.failedAttempts + 1,
      { db with
          credentials := db.credentials.map (fun p =>
            if p.1 == userId then
              (p.1, { p.2 with failedAttempts := p.2.failedAttempts + 1 })
            else p) })

/-- resetFailedAttempts: set failedAttempts to 0 and lockedUntil to null;
None when the credentials row is absent. -/
def resetFailedAttempts (db : Db) (userId : String) : Option Db :=
  if (db.credentials.find? (fun p => p.1 == userId)).isSome then
    some { db with
             credentials := db.credentials.map (fun p =>
               if p.1 == userId then
                 (p.1, { p.2 with failedAttempts := 0, lockedUntil := none })
               else p) }
  else none

/-- lockCredentials: set lockedUntil; None when the credentials row is
absent. -/
def lockCredentials (db : Db) (userId : String) (lockUntil : Nat) : Option Db :=
  if (db.credentials.find? (fun p => p.1 == userId)).isSome then
    some { db with
             credentials := db.credentials.map (fun p =>
               if p.1 == userId then (p.1, { p.2 with lockedUntil := some lockUntil })
               else p) }
  else none

-- ---------------------------------------------------------------------------
-- Token helpers (auth.service.ts)
-- ---------------------------------------------------------------------------

/-- generateAccessToken: sign (sub, email, role, type=access) with the
configured secret and access lifetime. -/
def generateAccessToken (cfg : Config) (now : Nat) (user : User) : SignedToken :=
  jwtSign cfg.jwt.secret
    { sub := user.id, email := user.email, role := user.role, typ := .access }
    (parseDurationMs cfg.jwt.expiresIn) now

/-- generateRefreshToken: same claims with type=refresh and the refresh
lifetime. -/
def generateRefreshToken (cfg : Config) (now : Nat) (user : User) : SignedToken :=
  jwtSign cfg.jwt.secret
    { sub := user.id, email := user.email, role := user.role, typ := .refresh }
    (parseDurationMs cfg.jwt.refreshExpiresIn) now

/-- A minted access/refresh pair. -/
structure TokenPair where
  accessToken : SignedToken
  refreshToken : SignedToken
deriving DecidableEq, Repr

/-- generateTokenPair. -/
def generateTokenPair (cfg : Config) (now : Nat) (user : User) : TokenPair :=
  { accessToken := generateAccessToken cfg now user
    refreshToken := generateRefreshToken cfg now user }

/-- verifyToken: jwt.verify with the configured secret, mapping
jwt.TokenExpiredError to TokenExpiredError and every other failure to
InvalidTokenError. -/
def verifyToken (cfg : Config) (now : Nat) (t : SignedToken) :
    Except AuthError JwtClaims :=
  match jwtVerify cfg.jwt.secret now t with
  | .ok claims => .ok claims
  | .error .expired => .error (.tokenExpired "Token has expired")
  | .error .invalid => .error (.invalidToken "Invalid token")

-- ---------------------------------------------------------------------------
-- Service flows (auth.service.ts)
-- ---------------------------------------------------------------------------

/-- Lockout constants of auth.service.ts. -/
def MAX_FAILED_ATTEMPTS : Nat := 5

/-- Lockout window in minutes. -/
def LOCKOUT_MINUTES : Nat := 30

/-- register input. -/
structure RegisterInput where
  email : String
  password : String
  firstName : String
  lastName : String
deriving DecidableEq, Repr

/-- The result of register / login / googleAuth. -/
structure AuthResult where
  user : User
  tokens : TokenPair
deriving DecidableEq, Repr

/-- register: reject a taken email, hash the password, create user plus
credentials, mint tokens.  No session row is created.  The bcrypt hash
function and the generated user id are passed in as external inputs. -/
def register (cfg : Config) (bcryptHash : String → String) (now : Nat)
    (newUserId : String) (input : RegisterInput) (db : Db) :
    Except AuthError AuthResult × Db :=
  match findUserByEmail db input.email with
  | some _ => (.error (.conflict "An account with this email already exists"), db)
  | none =>
    let passwordHash := bcryptHash input.password
    match createUserWithPassword db
        { id := newUserId
          email := input.email
          firstName := trimJS input.firstName
          lastName := trimJS input.lastName
          passwordHash := passwordHash } with
    | none => (.error (.internal "Unique constraint violation"), db)
    | some (user, db1) =>
      (.ok { user := user, tokens := generateTokenPair cfg now user }, db1)

/-- login input. -/
structure LoginInput where
  email : String
  password : String
  ipAddress : Option String
  userAgent : Option String
deriving DecidableEq, Repr

/-- The tail of login after the status and lockout gates: verify the password,
then either the success path (reset counter, update last login, mint tokens,
persist session) or the failure path (increment counter, lock at the
threshold). -/
def loginCheckPassword (cfg : Config) (bcryptCompare : String → String → Bool)
    (now : Nat) (input : LoginInput) (user : User) (creds : Credential)
    (db : Db) : Except AuthError AuthResult × Db :=
  if bcryptCompare input.password creds.passwordHash then
    match resetFailedAttempts db user.id with
    | none => (.error (.internal "Credentials row not found"), db)
    | some db1 =>
      match updateLastLogin db1 user.id input.ipAddress now with
      | none => (.error (.internal "User row not found"), db1)
      | some db2 =>
        let safeUser : User :=
          { user with lastLoginAt := some now, lastLoginIp := input.ipAddress }
        let tokens := generateTokenPair cfg now safeUser
        let refreshExpiresAt := now + parseDurationMs cfg.jwt.refreshExpiresIn
        match createSession db2
            { userId := user.id
              token := tokens.refreshToken
              ipAddress := input.ipAddress
              userAgent := input.userAgent
              expiresAt := refreshExpiresAt } with
        | none => (.error (.internal "Unique constraint violation"), db2)
        | some db3 => (.ok { user := safeUser, tokens := tokens }, db3)
  else
    match incrementFailedAttempts db user.id with
    | none => (.error (.internal "Credentials row not found"), db)
    | some (attempts, db1) =>
      if MAX_FAILED_ATTEMPTS ≤ attempts then
        match lockCredentials db1 user.id (now + LOCKOUT_MINUTES * 60 * 1000) with
        | none => (.error (.internal "Credentials row not found"), db1)
        | some db2 =>
          (.error (.authentication
            ("Too many failed attempts. Account locked for " ++
              toString LOCKOUT_MINUTES ++ " minutes.")), db2)
      else
        (.error (.authentication "Invalid email or password"), db1)

/-- login: find the user with credentials, gate on status and lockout, then
verify the password via loginCheckPassword. -/
def login (cfg : Config) (bcryptCompare : String → String → Bool) (now : Nat)
    (input : LoginInput) (db : Db) : Except AuthError AuthResult × Db :=
  match findUserByEmailWithCredentials db input.email with
  | none => (.error (.authentication "Invalid email or password"), db)
  | some (user, credsOpt) =>
    match credsOpt with
    | none => (.error (.authentication "Invalid email or password"), db)
    | some creds =>
      if user.status = .BANNED then
        (.error (.authentication "This account has been banned"), db)
      else if user.status = .SUSPENDED then
        (.error (.authentication "This account has been suspended"), db)
      else
        match creds.lockedUntil with
        | some lockT =>
          if now < lockT then
            let minutesLeft := (lockT - now + 59999) / 60000
            (.error (.authentication
              ("Account is temporarily locked. Try again in " ++
                toString minutesLeft ++ " minute(s).")), db)
          else loginCheckPassword cfg bcryptCompare now input user creds db
        | none => loginCheckPassword cfg bcryptCompare now input user creds db

/-- The payload the Google verifier returns (google-auth-library
TokenPayload); optional fields mirror the library's optional claims. -/
structure GooglePayload where
  sub : String
  email : Option String
  email_verified : Option Bool
  given_name : Option String
  family_name : Option String
  name : Option String
deriving DecidableEq, Repr

/-- JS truthy-or on an optional string: an absent or empty string falls
through to the default (JS a || b). -/
def jsStrOr (a : Option String) (b : String) : String :=
  match a with
  | some s => if s = "" then b else s
  | none => b

/-- The tail shared by all three googleAuth branches: update last login, mint
tokens, persist the refresh token as a session. -/
def googleAuthFinish (cfg : Config) (now : Nat) (user : User)
    (ipAddress userAgent : Option String) (db : Db) :
    Except AuthError AuthResult × Db :=
  match updateLastLogin db user.id ipAddress now with
  | none => (.error (.internal "User row not found"), db)
  | some db1 =>
    let tokens := generateTokenPair cfg now user
    let refreshExpiresAt := now + parseDurationMs cfg.jwt.refreshExpiresIn
    match createSession db1
        { userId := user.id
          token := tokens.refreshToken
          ipAddress := ipAddress
          userAgent := userAgent
          expiresAt := refreshExpiresAt } with
    | none => (.error (.internal "Unique constraint violation"), db1)
    | some db2 => (.ok { user := user, tokens := tokens }, db2)

/-- googleAuth: consume the external verifier's outcome (a failed verification
throws AuthenticationError; getPayload may be undefined), gate on the email
and email_verified claims, then resolve the identity: existing OAuth link,
link-by-email, or new-user creation.  The generated user id for the creation
branch is passed in as an external input. -/
def googleAuth (cfg : Config) (now : Nat) (newUserId : String)
    (verifyResult : Except Unit (Option GooglePayload))
    (ipAddress userAgent : Option String) (db : Db) :
    Except AuthError AuthResult × Db :=
  match verifyResult with
  | .error _ => (.error (.authentication "Invalid Google ID token"), db)
  | .ok payloadOpt =>
    match payloadOpt with
    | none => (.error (.authentication "Google token does not contain an email"), db)
    | some p =>
      match p.email with
      | none =>
        (.error (.authentication "Google token does not contain an email"), db)
      | some googleEmail =>
        if googleEmail = "" then
          (.error (.authentication "Google token does not contain an email"), db)
        else if p.email_verified = some false then
          (.error (.authentication "Google email is not verified"), db)
        else
          let googleFirstName :=
            jsStrOr p.given_name
              (jsStrOr (p.name.map (fun n => (jsSplit ' ' n).headD "")) "")
          let googleLastName :=
            jsStrOr p.family_name
              (jsStrOr (p.name.map (fun n =>
                joinWith " " ((jsSplit ' ' n).drop 1))) "")
          match findOAuthAccount db "google" p.sub with
          | some acct =>
            match findUserById db acct.userId with
            | none => (.error (.internal "OAuth account without user"), db)
            | some user =>
              if user.status = .BANNED then
                (.error (.authentication "This account has been banned"), db)
              else if user.status = .SUSPENDED then
                (.error (.authentication "This account has been suspended"), db)
              else googleAuthFinish cfg now user ipAddress userAgent db
          | none =>
            match findUserByEmail db googleEmail with
            | some existingUser =>
              match linkOAuthAccount db existingUser.id "google" p.sub with
              | none => (.error (.internal "Unique constraint violation"), db)
              | some db1 =>
                googleAuthFinish cfg now existingUser ipAddress userAgent db1
            | none =>
              match createOAuthUser db
                  { id := newUserId
                    email := googleEmail
                    firstName := googleFirstName
                    lastName := googleLastName
                    provider := "google"
                    providerId := p.sub } with
              | none => (.error (.internal "Unique constraint violation"), db)
              | some (user, db1) =>
                googleAuthFinish cfg now user ipAddress userAgent db1

/-- refreshAccessToken: verify the refresh token, require type=refresh, a live
session, and a still-active user; self-heal by deleting a stale session; mint
a new access token only. -/
def refreshAccessToken (cfg : Config) (now : Nat) (refreshToken : SignedToken)
    (db : Db) : Except AuthError (SignedToken × User) × Db :=
  match verifyToken cfg now refreshToken with
  | .error e => (.error e, db)
  | .ok decoded =>
    if decoded.typ ≠ .refresh then
      (.error (.invalidToken "Expected a refresh token"), db)
    else
      match findSessionByToken db refreshToken with
      | none => (.error (.unauthorized "Session has been revoked"), db)
      | some session =>
        if session.expiresAt < now then
          (.error (.tokenExpired "Refresh token has expired"),
            deleteSession db refreshToken)
        else
          match findUserById db decoded.sub with
          | none => (.error (.unauthorized "User not found"), db)
          | some user =>
            if user.status = .BANNED ∨ user.status = .SUSPENDED then
              (.error (.authentication "Account is no longer active"),
                deleteSession db refreshToken)
            else
              (.ok (generateAccessToken cfg now user, user), db)

/-- logout: delete the session for the supplied refresh token; always
succeeds. -/
def logout (refreshToken : SignedToken) (db : Db) :
    Except AuthError Unit × Db :=
  (.ok (), deleteSession db refreshToken)

-- ---------------------------------------------------------------------------
-- Derived accessors and spec-side reading helpers
-- ---------------------------------------------------------------------------

/-- The credentials row of a user, as the repository looks it up. -/
def findCredential (db : Db) (userId : String) : Option (String × Credential) :=
  db.credentials.find? (fun p => p.1 == userId)

/-- The number of seconds one unit suffix denotes, as the spec reads the
duration format: s = 1, m = 60, h = 3600, d = 86400 seconds. -/
def specUnitSeconds (u : Char) : Nat :=
  if u = 's' then 1
  else if u = 'm' then 60
  else if u = 'h' then 3600
  else if u = 'd' then 86400
  else 0

-- ---------------------------------------------------------------------------
-- Concrete fixtures (used by counterexamples and witnesses)
-- ---------------------------------------------------------------------------

/-- A concrete configuration. -/
def cfgT : Config :=
  { jwt := { secret := "sec", expiresIn := "7d", refreshExpiresIn := "30d" } }

/-- A concrete bcrypt.hash stand-in. -/
def bhT : String → String := fun pw => "H" ++ pw

/-- The matching bcrypt.compare stand-in. -/
def bcT : String → String → Bool := fun pw h => h == "H" ++ pw

/-- A concrete active user. -/
def aliceT : User :=
  { id := "u1", email := "alice@x.com", firstName := "Alice", lastName := "L",
    role := .TRADER, status := .ACTIVE, emailVerified := true,
    lastLoginAt := none, lastLoginIp := none }

/-- A concrete banned user. -/
def bobBannedT : User :=
  { aliceT with id := "u2", email := "bob@x.com", status := .BANNED }

/-- A concrete credentials row with a given counter and lock. -/
def credT (n : Nat) (lock : Option Nat) : Credential :=
  { passwordHash := "Hpw", failedAttempts := n, lockedUntil := lock }

/-- A database holding alice with the given credential state. -/
def dbT (n : Nat) (lock : Option Nat) : Db :=
  { users := [aliceT], credentials := [("u1", credT n lock)],
    oauthAccounts := [], sessions := [] }

/-- A database holding alice (active) and bob (banned), both with clean
credentials. -/
def dbTwoT : Db :=
  { users := [aliceT, bobBannedT],
    credentials := [("u1", credT 0 none), ("u2", credT 0 none)],
    oauthAccounts := [], sessions := [] }

/-- An empty database. -/
def dbEmptyT : Db :=
  { users := [], credentials := [], oauthAccounts := [], sessions := [] }

/-- A login input against alice's email with the given password. -/
def inpT (pw : String) : LoginInput :=
  { email := "alice@x.com", password := pw, ipAddress := none, userAgent := none }

/-- The refresh token login would mint for alice at time 0. -/
def tokRT : SignedToken := generateRefreshToken cfgT 0 aliceT

/-- The session row backing tokRT. -/
def sessT : Session :=
  { userId := "u1", token := tokRT, ipAddress := none, userAgent := none,
    expiresAt := 2592000000 }

/-- Alice's database with the session row for tokRT present. -/
def dbSessT : Db := { dbT 0 none with sessions := [sessT] }

/-- A Google payload carrying an email but no email_verified claim at all. -/
def gPayloadNoVerifiedT : GooglePayload :=
  { sub := "gsub1", email := some "new@x.com", email_verified := none,
    given_name := some "New", family_name := some "User", name := none }

/-- A Google payload whose email_verified claim is explicitly false. -/
def gPayloadUnverifiedT : GooglePayload :=
  { sub := "gsub2", email := some "unv@x.com", email_verified := some false,
    given_name := none, family_name := none, name := none }

/-- The access token minted for alice at time 0. -/
def tokAT : SignedToken := generateAccessToken cfgT 0 aliceT

/-- A stale session row for tokRT: the stored expiry has passed while the
token itself still verifies. -/
def sessStaleT : Session := { sessT with expiresAt := 500 }

/-- Alice's database with only the stale session row. -/
def dbStaleT : Db := { dbT 0 none with sessions := [sessStaleT] }

/-- Decidable equality for Except results (not provided by core). -/
instance instDecEqExcept {ε α : Type} [DecidableEq ε] [DecidableEq α] :
    DecidableEq (Except ε α) := fun x y =>
  match x, y with
  | .ok a, .ok b =>
    if h : a = b then isTrue (by rw [h])
    else isFalse (by intro hc; cases hc; exact h rfl)
  | .error a, .error b =>
    if h : a = b then isTrue (by rw [h])
    else isFalse (by intro hc; cases hc; exact h rfl)
  | .ok _, .error _ => isFalse (by intro hc; cases hc)
  | .error _, .ok _ => isFalse (by intro hc; cases hc)

/-- Whether an auth flow result is a success. -/
def resultIsOk (r : Except AuthError AuthResult × Db) : Bool :=
  match r.1 with
  | .ok _ => true
  | .error _ => false

/-- The success payload of a flow result, with a fixed fallback. -/
def resultOrDefault (r : Except AuthError AuthResult × Db) : AuthResult :=
  match r.1 with
  | .ok a => a
  | .error _ => { user := aliceT, tokens := generateTokenPair cfgT 0 aliceT }

/-- A successful login for alice at time 10, against a counter of 4 and an
already-elapsed lock. -/
def loginOkT : Except AuthError AuthResult × Db :=
  login cfgT bcT 10 (inpT "pw") (dbT 4 (some 5))

/-- A concrete registration input. -/
def regInpT : RegisterInput :=
  { email := "a@x.com", password := "pw", firstName := "A", lastName := "B" }

/-- The registration of regInpT against an empty database at time 0. -/
def regOutT : Except AuthError AuthResult × Db :=
  register cfgT bhT 0 "u1" regInpT dbEmptyT

-- ===========================================================================
-- Theorems
-- ===========================================================================

-- Helper lemmas (shared; not claim theorems)

/-- A well-shaped digits-plus-unit list matches the duration regex. -/
theorem matchDuration_concat (ds : List Char) (u : Char)
    (hds : ds ≠ []) (hdig : ds.all Char.isDigit = true)
    (hu : u = 's' ∨ u = 'm' ∨ u = 'h' ∨ u = 'd') :
    matchDuration (ds ++ [u]) = some (ds, u) := by
  unfold matchDuration
  rw [List.getLast?_concat, List.dropLast_concat]
  exact if_pos ⟨hds, hdig, hu⟩

/-- A successful duration-regex match decomposes the input into a nonempty
all-digit prefix and a unit suffix. -/
theorem matchDuration_eq_some {cs ds : List Char} {u : Char}
    (h : matchDuration cs = some (ds, u)) :
    cs = ds ++ [u] ∧ ds ≠ [] ∧ ds.all Char.isDigit = true ∧
      (u = 's' ∨ u = 'm' ∨ u = 'h' ∨ u = 'd') := by
  unfold matchDuration at h
  split at h
  · exact absurd h (by simp)
  · rename_i u0 hg
    split at h
    · rename_i hc
      have hinj := Option.some.inj h
      have h1 : cs.dropLast = ds := congrArg Prod.fst hinj
      have h2 : u0 = u := congrArg Prod.snd hinj
      subst h1
      subst h2
      have hcat : cs.dropLast ++ [u0] = cs :=
        List.dropLast_append_getLast? u0 (Option.mem_def.mpr hg)
      exact ⟨hcat.symm, hc.1, hc.2.1, hc.2.2⟩
    · exact absurd h (by simp)

/-- find? over a keyed in-place map: updating exactly the rows matched by the
predicate commutes with looking the first such row up. -/
theorem find?_map_keyed {α : Type} (p : α → Bool) (g upd : α → α)
    (hmatch : ∀ a, p a = true → g a = upd a)
    (hp : ∀ a, p (g a) = p a) (l : List α) :
    (l.map g).find? p = (l.find? p).map upd := by
  induction l with
  | nil => rfl
  | cons a t ih =>
    cases hpa : p a with
    | true =>
      rw [List.map_cons, List.find?_cons_of_pos _ (by rw [hp]; exact hpa),
        List.find?_cons_of_pos _ hpa, hmatch a hpa, Option.map_some']
    | false =>
      rw [List.map_cons, List.find?_cons_of_neg _ (by rw [hp]; simp [hpa]),
        List.find?_cons_of_neg _ (by simp [hpa]), ih]

/-- Splitting a successful user-with-credentials lookup into its user part and
its credentials part; the credentials row is keyed by the user's own id. -/
theorem findCredential_of_UWC {db : Db} {email : String} {user : User}
    {creds : Credential}
    (h : findUserByEmailWithCredentials db email = some (user, some creds)) :
    findUserByEmail db email = some user ∧
      findCredential db user.id = some (user.id, creds) := by
  unfold findUserByEmailWithCredentials at h
  cases hf : findUserByEmail db email with
  | none => rw [hf] at h; exact absurd h (by simp)
  | some u =>
    rw [hf] at h
    have hinj := Option.some.inj h
    have h1 : u = user := congrArg Prod.fst hinj
    subst h1
    have h2 : (db.credentials.find? (fun p => p.1 == u.id)).map Prod.snd =
        some creds := congrArg Prod.snd hinj
    cases hc : db.credentials.find? (fun p => p.1 == u.id) with
    | none => rw [hc] at h2; exact absurd h2 (by simp)
    | some q =>
      rw [hc] at h2
      have hq2 : q.2 = creds := Option.some.inj h2
      have hq1 : q.1 = u.id := by
        have := List.find?_some hc
        exact eq_of_beq this
      refine ⟨rfl, ?_⟩
      unfold findCredential
      rw [hc, ← hq1, ← hq2]

/-- incrementFailedAttempts on a present row: returns the post-increment
count, touches only the credentials table, and rewrites exactly this row. -/
theorem incrementFailedAttempts_spec {db : Db} {uid : String}
    {creds : Credential} (h : findCredential db uid = some (uid, creds)) :
    ∃ db', incrementFailedAttempts db uid = some (creds.failedAttempts + 1, db') ∧
      db'.users = db.users ∧ db'.sessions = db.sessions ∧
      db'.oauthAccounts = db.oauthAccounts ∧
      findCredential db' uid =
        some (uid, { creds with failedAttempts := creds.failedAttempts + 1 }) := by
  unfold findCredential at h
  unfold incrementFailedAttempts
  rw [h]
  refine ⟨_, rfl, rfl, rfl, rfl, ?_⟩
  unfold findCredential
  rw [find?_map_keyed (fun q => q.1 == uid)
    (fun q => if q.1 == uid then
        (q.1, { q.2 with failedAttempts := q.2.failedAttempts + 1 }) else q)
    (fun q => (q.1, { q.2 with failedAttempts := q.2.failedAttempts + 1 }))
    (fun a ha => by simp [ha])
    (fun a => by cases ha : a.1 == uid <;> simp [ha]) db.credentials, h,
    Option.map_some']

/-- resetFailedAttempts on a present row: zeroes the counter and clears the
lock on exactly this row, touching only the credentials table. -/
theorem resetFailedAttempts_spec {db : Db} {uid : String}
    {creds : Credential} (h : findCredential db uid = some (uid, creds)) :
    ∃ db', resetFailedAttempts db uid = some db' ∧
      db'.users = db.users ∧ db'.sessions = db.sessions ∧
      db'.oauthAccounts = db.oauthAccounts ∧
      findCredential db' uid =
        some (uid, { creds with failedAttempts := 0, lockedUntil := none }) := by
  unfold findCredential at h
  unfold resetFailedAttempts
  rw [if_pos (by rw [h]; exact rfl)]
  refine ⟨_, rfl, rfl, rfl, rfl, ?_⟩
  unfold findCredential
  rw [find?_map_keyed (fun q => q.1 == uid)
    (fun q => if q.1 == uid then
        (q.1, { q.2 with failedAttempts := 0, lockedUntil := none }) else q)
    (fun q => (q.1, { q.2 with failedAttempts := 0, lockedUntil := none }))
    (fun a ha => by simp [ha])
    (fun a => by cases ha : a.1 == uid <;> simp [ha]) db.credentials, h,
    Option.map_some']

/-- lockCredentials on a present row: sets the lock timestamp on exactly this
row, touching only the credentials table. -/
theorem lockCredentials_spec {db : Db} {uid : String} {creds : Credential}
    (lockUntil : Nat) (h : findCredential db uid = some (uid, creds)) :
    ∃ db', lockCredentials db uid lockUntil = some db' ∧
      db'.users = db.users ∧ db'.sessions = db.sessions ∧
      db'.oauthAccounts = db.oauthAccounts ∧
      findCredential db' uid =
        some (uid, { creds with lockedUntil := some lockUntil }) := by
  unfold findCredential at h
  unfold lockCredentials
  rw [if_pos (by rw [h]; exact rfl)]
  refine ⟨_, rfl, rfl, rfl, rfl, ?_⟩
  unfold findCredential
  rw [find?_map_keyed (fun q => q.1 == uid)
    (fun q => if q.1 == uid then
        (q.1, { q.2 with lockedUntil := some lockUntil }) else q)
    (fun q => (q.1, { q.2 with lockedUntil := some lockUntil }))
    (fun a ha => by simp [ha])
    (fun a => by cases ha : a.1 == uid <;> simp [ha]) db.credentials, h,
    Option.map_some']

-- ---------------------------------------------------------------------------
-- C9
-- ---------------------------------------------------------------------------

/-- C9: a token-lifetime string of the shape digits-plus-unit (s, m, h, d)
parses to the decimal value times the unit's seconds (returned in
milliseconds), and every string not of that shape parses to the safe 30-day
default instead of an error. -/
theorem C9_parseDuration_spec :
    (∀ (ds : List Char) (u : Char), ds ≠ [] → ds.all Char.isDigit = true →
      (u = 's' ∨ u = 'm' ∨ u = 'h' ∨ u = 'd') →
      parseDurationMs (String.mk (ds ++ [u])) =
        digitsToNat ds * specUnitSeconds u * 1000) ∧
    (∀ s : String,
      (∀ (ds : List Char) (u : Char), s.data = ds ++ [u] → ds ≠ [] →
        ds.all Char.isDigit = true →
        (u = 's' ∨ u = 'm' ∨ u = 'h' ∨ u = 'd') → False) →
      parseDurationMs s = 30 * 24 * 60 * 60 * 1000) := by
  constructor
  · intro ds u hds hdig hu
    have hlist : (String.mk (ds ++ [u])).toList = ds ++ [u] := rfl
    unfold parseDurationMs
    rw [hlist, matchDuration_concat ds u hds hdig hu]
    rcases hu with h | h | h | h <;> subst h <;>
      simp [specUnitSeconds] <;> ring
  · intro s hshape
    unfold parseDurationMs
    cases hm : matchDuration s.toList with
    | none => rfl
    | some p =>
      obtain ⟨ds, u⟩ := p
      obtain ⟨hcat, hne, hdig, hu⟩ := matchDuration_eq_some hm
      exact (hshape ds u hcat hne hdig hu).elim

/-- C9 witness: "7d" parses to 7 times 86400 seconds (in milliseconds) and the
malformed "" parses to the 30-day default. -/
theorem C9_parseDuration_spec_witness :
    parseDurationMs (String.mk (['7'] ++ ['d'])) =
      digitsToNat ['7'] * specUnitSeconds 'd' * 1000 ∧
    parseDurationMs "" = 30 * 24 * 60 * 60 * 1000 := by
  constructor
  · exact C9_parseDuration_spec.1 ['7'] 'd' (by decide) (by decide) (by decide)
  · exact C9_parseDuration_spec.2 "" (by intro ds u hdata _ _ _; simp at hdata)

-- ---------------------------------------------------------------------------
-- C7
-- ---------------------------------------------------------------------------

/-- C7: a token minted by generateAccessToken or generateRefreshToken and
immediately verified (same instant, same signing secret) yields exactly the
subject, email, role, and type claims put in at minting, provided the
configured lifetime is positive. -/
theorem C7_token_roundtrip (cfg : Config) (now : Nat) (user : User)
    (haccess : 0 < parseDurationMs cfg.jwt.expiresIn)
    (hrefresh : 0 < parseDurationMs cfg.jwt.refreshExpiresIn) :
    verifyToken cfg now (generateAccessToken cfg now user) =
      .ok { sub := user.id, email := user.email, role := user.role,
            typ := .access } ∧
    verifyToken cfg now (generateRefreshToken cfg now user) =
      .ok { sub := user.id, email := user.email, role := user.role,
            typ := .refresh } := by
  constructor
  · unfold verifyToken generateAccessToken jwtSign jwtVerify
    rw [if_neg (by simp), if_neg (by simp; omega)]
  · unfold verifyToken generateRefreshToken jwtSign jwtVerify
    rw [if_neg (by simp), if_neg (by simp; omega)]

/-- C7 witness: round trip at a concrete configuration, user and instant. -/
theorem C7_token_roundtrip_witness :
    verifyToken cfgT 1000 (generateAccessToken cfgT 1000 aliceT) =
      .ok { sub := aliceT.id, email := aliceT.email, role := aliceT.role,
            typ := .access } ∧
    verifyToken cfgT 1000 (generateRefreshToken cfgT 1000 aliceT) =
      .ok { sub := aliceT.id, email := aliceT.email, role := aliceT.role,
            typ := .refresh } :=
  C7_token_roundtrip cfgT 1000 aliceT (by decide) (by decide)

-- ---------------------------------------------------------------------------
-- C8
-- ---------------------------------------------------------------------------

/-- C8: logout succeeds for any refresh token, a second logout with the same
token also succeeds, and the second call leaves the session store unchanged:
deleting an already-absent session is a no-op, not an error. -/
theorem C8_logout_idempotent (t : SignedToken) (db : Db) :
    (logout t db).1 = .ok () ∧
    (logout t (logout t db).2).1 = .ok () ∧
    (logout t (logout t db).2).2 = (logout t db).2 := by
  refine ⟨rfl, rfl, ?_⟩
  simp only [logout, deleteSession, List.filter_filter]
  congr 1
  apply List.filter_congr
  intro s _
  cases h : decide (s.token ≠ t) <;> simp

-- ---------------------------------------------------------------------------
-- C2
-- ---------------------------------------------------------------------------

/-- C2 counterexample: a Google payload that carries an email but no
email_verified claim at all (so the identity does not carry a verified email)
is not rejected: against an empty database the flow succeeds and creates a
user, because the code only rejects when email_verified is literally false. -/
theorem C2_counterexample :
    gPayloadNoVerifiedT.email_verified ≠ some true ∧
    resultIsOk (googleAuth cfgT 0 "u9" (.ok (some gPayloadNoVerifiedT))
      none none dbEmptyT) = true ∧
    (googleAuth cfgT 0 "u9" (.ok (some gPayloadNoVerifiedT))
      none none dbEmptyT).2.users.length = 1 := by
  refine ⟨by decide, by decide, by decide⟩

/-- C2 amended: a federated login whose payload carries email_verified
explicitly false is rejected with an AuthenticationError and the database is
left unchanged (no user created or linked); a payload lacking the
email_verified claim altogether is not rejected by this guard. -/
theorem C2_unverified_email_rejected (cfg : Config) (now : Nat)
    (newUserId : String) (p : GooglePayload) (e : String)
    (ip ua : Option String) (db : Db)
    (he : p.email = some e) (hne : e ≠ "")
    (hv : p.email_verified = some false) :
    googleAuth cfg now newUserId (.ok (some p)) ip ua db =
      (.error (.authentication "Google email is not verified"), db) := by
  unfold googleAuth
  simp only [he]
  rw [if_neg hne, if_pos hv]

/-- C2 witness: the amended rejection at a concrete unverified payload. -/
theorem C2_unverified_email_rejected_witness :
    googleAuth cfgT 0 "u9" (.ok (some gPayloadUnverifiedT)) none none dbEmptyT =
      (.error (.authentication "Google email is not verified"), dbEmptyT) :=
  C2_unverified_email_rejected cfgT 0 "u9" gPayloadUnverifiedT "unv@x.com"
    none none dbEmptyT (by decide) (by decide) (by decide)

-- ---------------------------------------------------------------------------
-- C3
-- ---------------------------------------------------------------------------

/-- C3 counterexample: a syntactically valid refresh token whose own expiry
has elapsed yields TokenExpiredError, but the database is returned unchanged
and the Session row is still present — the error is raised by verifyToken
before the session lookup, so no deletion happens in this path. -/
theorem C3_counterexample :
    refreshAccessToken cfgT 3000000000 tokRT dbSessT =
      (.error (.tokenExpired "Token has expired"), dbSessT) ∧
    findSessionByToken dbSessT tokRT = some sessT := by
  refine ⟨by decide, by decide⟩

/-- C3 amended: TokenExpiredError with session deletion happens only on the
self-heal path, where the token itself still verifies but the stored session
row's expiresAt has passed: then the row is deleted and the refresh fails
with TokenExpiredError; when the token's own embedded expiry has elapsed the
error is raised before the session lookup and the row remains. -/
theorem C3_stale_session_selfheal (cfg : Config) (now : Nat)
    (t : SignedToken) (db : Db) (s : Session)
    (hsig : t.secret = cfg.jwt.secret) (hexp : now < t.exp)
    (htyp : t.claims.typ = .refresh)
    (hsess : findSessionByToken db t = some s) (hsexp : s.expiresAt < now) :
    refreshAccessToken cfg now t db =
      (.error (.tokenExpired "Refresh token has expired"), deleteSession db t) ∧
    findSessionByToken (deleteSession db t) t = none := by
  constructor
  · unfold refreshAccessToken verifyToken jwtVerify
    rw [if_neg (by simp [hsig]), if_neg (by omega)]
    show (if t.claims.typ ≠ .refresh then _ else _) = _
    rw [if_neg (by simp [htyp]), hsess]
    show (if s.expiresAt < now then _ else _) = _
    rw [if_pos hsexp]
  · unfold findSessionByToken deleteSession
    rw [List.find?_eq_none]
    intro x hx
    rw [List.mem_filter] at hx
    have hne : x.token ≠ t := of_decide_eq_true hx.2
    simp [hne]

/-- C3 witness: the self-heal deletion at a concrete stale session. -/
theorem C3_stale_session_selfheal_witness :
    refreshAccessToken cfgT 1000 tokRT dbStaleT =
      (.error (.tokenExpired "Refresh token has expired"),
        deleteSession dbStaleT tokRT) ∧
    findSessionByToken (deleteSession dbStaleT tokRT) tokRT = none :=
  C3_stale_session_selfheal cfgT 1000 tokRT dbStaleT sessStaleT
    (by decide) (by decide) (by decide) (by decide) (by decide)

-- ---------------------------------------------------------------------------
-- C5
-- ---------------------------------------------------------------------------

/-- C5 counterexample: two login failures with different non-lockout causes —
a banned account given its correct password versus an unknown email — carry
different messages to the caller, so non-lockout failures are not
message-identical. -/
theorem C5_counterexample :
    (login cfgT bcT 0
      { email := "bob@x.com", password := "pw", ipAddress := none,
        userAgent := none } dbTwoT).1 =
      .error (.authentication "This account has been banned") ∧
    (login cfgT bcT 0
      { email := "nobody@x.com", password := "pw", ipAddress := none,
        userAgent := none } dbTwoT).1 =
      .error (.authentication "Invalid email or password") ∧
    ("This account has been banned" : String) ≠ "Invalid email or password" := by
  refine ⟨by decide, by decide, by decide⟩

/-- findUserByEmail depends only on the users table. -/
theorem findUserByEmail_congr {db db' : Db} (h : db'.users = db.users)
    (email : String) :
    findUserByEmail db' email = findUserByEmail db email := by
  unfold findUserByEmail
  rw [h]

/-- Rebuilding a user-with-credentials lookup from its two parts. -/
theorem findUWC_build {db : Db} {email : String} {user : User}
    (hfe : findUserByEmail db email = some user) :
    findUserByEmailWithCredentials db email =
      some (user, (findCredential db user.id).map Prod.snd) := by
  unfold findUserByEmailWithCredentials findCredential
  rw [hfe]

/-- Characterization of login on a wrong password (helper): the counter is
incremented, the lock is set exactly when the post-increment count reaches the
threshold, the reported message depends only on that threshold test, and the
users and sessions tables are untouched. -/
theorem login_wrong_password (cfg : Config) (bc : String → String → Bool)
    (now : Nat) (inp : LoginInput) (db : Db) (user : User) (creds : Credential)
    (hfind : findUserByEmailWithCredentials db inp.email =
      some (user, some creds))
    (hb : user.status ≠ .BANNED) (hs : user.status ≠ .SUSPENDED)
    (hnl : ∀ lt, creds.lockedUntil = some lt → lt ≤ now)
    (hw : bc inp.password creds.passwordHash = false) :
    (login cfg bc now inp db).1 =
      .error (.authentication
        (if MAX_FAILED_ATTEMPTS ≤ creds.failedAttempts + 1 then
          "Too many failed attempts. Account locked for " ++
            toString LOCKOUT_MINUTES ++ " minutes."
        else "Invalid email or password")) ∧
    (login cfg bc now inp db).2.users = db.users ∧
    (login cfg bc now inp db).2.sessions = db.sessions ∧
    findUserByEmailWithCredentials (login cfg bc now inp db).2 inp.email =
      some (user, some { creds with
        failedAttempts := creds.failedAttempts + 1,
        lockedUntil :=
          if MAX_FAILED_ATTEMPTS ≤ creds.failedAttempts + 1 then
            some (now + LOCKOUT_MINUTES * 60 * 1000)
          else creds.lockedUntil }) := by
  obtain ⟨hfe, hcred⟩ := findCredential_of_UWC hfind
  obtain ⟨db1, hinc, hu1, hs1, ho1, hc1⟩ := incrementFailedAttempts_spec hcred
  have hpath : login cfg bc now inp db =
      loginCheckPassword cfg bc now inp user creds db := by
    unfold login
    rw [hfind]
    show (if user.status = .BANNED then _ else _) = _
    rw [if_neg hb, if_neg hs]
    cases hcl : creds.lockedUntil with
    | none => rfl
    | some lt =>
      show (if now < lt then _ else _) = _
      rw [if_neg (by have := hnl lt hcl; omega)]
  rw [hpath]
  unfold loginCheckPassword
  split
  · rename_i hbc
    rw [hw] at hbc
    exact absurd hbc (by simp)
  · split
    · rename_i heq
      rw [hinc] at heq
      exact absurd heq (by simp)
    · rename_i attempts db1' heq
      rw [hinc] at heq
      have hpair := Option.some.inj heq
      have hatt : creds.failedAttempts + 1 = attempts := congrArg Prod.fst hpair
      have hdb : db1 = db1' := congrArg Prod.snd hpair
      subst hatt
      subst hdb
      split
      · rename_i hth
        obtain ⟨db2, hlock, hu2, hs2, ho2, hc2⟩ :=
          lockCredentials_spec (now + LOCKOUT_MINUTES * 60 * 1000) hc1
        split
        · rename_i heq2
          rw [hlock] at heq2
          exact absurd heq2 (by simp)
        · rename_i db2' heq2
          rw [hlock] at heq2
          have hdb2 : db2 = db2' := Option.some.inj heq2
          subst hdb2
          dsimp only
          refine ⟨rfl, hu2.trans hu1, hs2.trans hs1, ?_⟩
          have hfe2 : findUserByEmail db2 inp.email = some user := by
            rw [findUserByEmail_congr (hu2.trans hu1) inp.email]
            exact hfe
          rw [findUWC_build hfe2, hc2]
          rfl
      · rename_i hth
        dsimp only
        refine ⟨rfl, hu1, hs1, ?_⟩
        have hfe1 : findUserByEmail db1 inp.email = some user := by
          rw [findUserByEmail_congr hu1 inp.email]
          exact hfe
        rw [findUWC_build hfe1, hc1]
        rfl

-- ---------------------------------------------------------------------------
-- C1
-- ---------------------------------------------------------------------------

/-- C1: (1) a failed password check increments the counter, and exactly when
the post-increment value reaches the threshold of 5 the lock is set to
now + 30 minutes and a locked outcome is reported; (2) while lockedUntil lies
in the future every login attempt — whatever the password — is rejected as
locked; (3) once lockedUntil has elapsed the lock no longer gates and the
attempt proceeds to the password check. -/
theorem C1_lockout :
    (∀ (cfg : Config) (bc : String → String → Bool) (now : Nat)
        (inp : LoginInput) (db : Db) (user : User) (creds : Credential),
      findUserByEmailWithCredentials db inp.email = some (user, some creds) →
      user.status ≠ .BANNED → user.status ≠ .SUSPENDED →
      (∀ lt, creds.lockedUntil = some lt → lt ≤ now) →
      bc inp.password creds.passwordHash = false →
      (login cfg bc now inp db).1 =
        .error (.authentication
          (if MAX_FAILED_ATTEMPTS ≤ creds.failedAttempts + 1 then
            "Too many failed attempts. Account locked for " ++
              toString LOCKOUT_MINUTES ++ " minutes."
          else "Invalid email or password")) ∧
      findUserByEmailWithCredentials (login cfg bc now inp db).2 inp.email =
        some (user, some { creds with
          failedAttempts := creds.failedAttempts + 1,
          lockedUntil :=
            if MAX_FAILED_ATTEMPTS ≤ creds.failedAttempts + 1 then
              some (now + LOCKOUT_MINUTES * 60 * 1000)
            else creds.lockedUntil })) ∧
    (∀ (cfg : Config) (bc : String → String → Bool) (now : Nat)
        (inp : LoginInput) (db : Db) (user : User) (creds : Credential)
        (lt : Nat),
      findUserByEmailWithCredentials db inp.email = some (user, some creds) →
      user.status ≠ .BANNED → user.status ≠ .SUSPENDED →
      creds.lockedUntil = some lt → now < lt →
      login cfg bc now inp db =
        (.error (.authentication
          ("Account is temporarily locked. Try again in " ++
            toString ((lt - now + 59999) / 60000) ++ " minute(s).")), db)) ∧
    (∀ (cfg : Config) (bc : String → String → Bool) (now : Nat)
        (inp : LoginInput) (db : Db) (user : User) (creds : Credential)
        (lt : Nat),
      findUserByEmailWithCredentials db inp.email = some (user, some creds) →
      user.status ≠ .BANNED → user.status ≠ .SUSPENDED →
      creds.lockedUntil = some lt → lt ≤ now →
      login cfg bc now inp db =
        loginCheckPassword cfg bc now inp user creds db) := by
  refine ⟨?_, ?_, ?_⟩
  · intro cfg bc now inp db user creds hfind hb hs hnl hw
    obtain ⟨hmsg, _, _, hrow⟩ :=
      login_wrong_password cfg bc now inp db user creds hfind hb hs hnl hw
    exact ⟨hmsg, hrow⟩
  · intro cfg bc now inp db user creds lt hfind hb hs hcl hlt
    unfold login
    rw [hfind]
    show (if user.status = .BANNED then _ else _) = _
    rw [if_neg hb, if_neg hs, hcl]
    show (if now < lt then _ else _) = _
    rw [if_pos hlt]
  · intro cfg bc now inp db user creds lt hfind hb hs hcl hge
    unfold login
    rw [hfind]
    show (if user.status = .BANNED then _ else _) = _
    rw [if_neg hb, if_neg hs, hcl]
    show (if now < lt then _ else _) = _
    rw [if_neg (by omega)]

/-- C1 witness: the three parts at concrete states — the fifth failure locks
alice's account, a locked account rejects even the correct password with the
remaining minutes, and after the lock elapses the attempt reaches the
password check again. -/
theorem C1_lockout_witness :
    ((login cfgT bcT 0 (inpT "bad") (dbT 4 none)).1 =
      .error (.authentication
        (if MAX_FAILED_ATTEMPTS ≤ (credT 4 none).failedAttempts + 1 then
          "Too many failed attempts. Account locked for " ++
            toString LOCKOUT_MINUTES ++ " minutes."
        else "Invalid email or password")) ∧
     findUserByEmailWithCredentials (login cfgT bcT 0 (inpT "bad")
        (dbT 4 none)).2 (inpT "bad").email =
      some (aliceT, some { credT 4 none with
        failedAttempts := (credT 4 none).failedAttempts + 1,
        lockedUntil :=
          if MAX_FAILED_ATTEMPTS ≤ (credT 4 none).failedAttempts + 1 then
            some (0 + LOCKOUT_MINUTES * 60 * 1000)
          else (credT 4 none).lockedUntil })) ∧
    (login cfgT bcT 40 (inpT "pw") (dbT 5 (some 100)) =
      (.error (.authentication
        ("Account is temporarily locked. Try again in " ++
          toString ((100 - 40 + 59999) / 60000) ++ " minute(s).")),
        dbT 5 (some 100))) ∧
    (login cfgT bcT 200 (inpT "pw") (dbT 5 (some 100)) =
      loginCheckPassword cfgT bcT 200 (inpT "pw") aliceT
        (credT 5 (some 100)) (dbT 5 (some 100))) := by
  refine ⟨?_, ?_, ?_⟩
  · exact C1_lockout.1 cfgT bcT 0 (inpT "bad") (dbT 4 none) aliceT
      (credT 4 none) (by decide) (by decide) (by decide)
      (fun lt h => Option.noConfusion h) (by decide)
  · exact C1_lockout.2.1 cfgT bcT 40 (inpT "pw") (dbT 5 (some 100)) aliceT
      (credT 5 (some 100)) 100 (by decide) (by decide) (by decide)
      (by decide) (by decide)
  · exact C1_lockout.2.2 cfgT bcT 200 (inpT "pw") (dbT 5 (some 100)) aliceT
      (credT 5 (some 100)) 100 (by decide) (by decide) (by decide)
      (by decide) (by decide)

-- ---------------------------------------------------------------------------
-- C5 (amended theorem)
-- ---------------------------------------------------------------------------

/-- C5 amended: an unknown email and a wrong password (below the lockout
threshold) are reported with the identical generic message, never
distinguishing the two causes; but banned, suspended and federated-assertion
failures carry their own distinct messages (see the counterexample), and only
lockout failures disclose the remaining wait time. -/
theorem C5_generic_message (cfg : Config) (bc : String → String → Bool)
    (now1 now2 : Nat) (inp1 inp2 : LoginInput) (db1 db2 : Db) (user : User)
    (creds : Credential)
    (h1 : findUserByEmailWithCredentials db1 inp1.email = none)
    (h2 : findUserByEmailWithCredentials db2 inp2.email =
      some (user, some creds))
    (hb : user.status ≠ .BANNED) (hs : user.status ≠ .SUSPENDED)
    (hnl : ∀ lt, creds.lockedUntil = some lt → lt ≤ now2)
    (hw : bc inp2.password creds.passwordHash = false)
    (hbelow : creds.failedAttempts + 1 < MAX_FAILED_ATTEMPTS) :
    (login cfg bc now1 inp1 db1).1 =
      .error (.authentication "Invalid email or password") ∧
    (login cfg bc now2 inp2 db2).1 =
      .error (.authentication "Invalid email or password") := by
  constructor
  · unfold login
    rw [h1]
  · have hmsg :=
      (login_wrong_password cfg bc now2 inp2 db2 user creds h2 hb hs hnl hw).1
    rw [if_neg (by omega)] at hmsg
    exact hmsg

/-- C5 witness: the amended message identity at concrete states — an unknown
email and alice's wrong password report the same generic message. -/
theorem C5_generic_message_witness :
    (login cfgT bcT 0
      { email := "nobody@x.com", password := "pw", ipAddress := none,
        userAgent := none } dbTwoT).1 =
      .error (.authentication "Invalid email or password") ∧
    (login cfgT bcT 0 (inpT "bad") (dbT 0 none)).1 =
      .error (.authentication "Invalid email or password") :=
  C5_generic_message cfgT bcT 0 0
    { email := "nobody@x.com", password := "pw", ipAddress := none,
      userAgent := none } (inpT "bad") dbTwoT (dbT 0 none) aliceT
    (credT 0 none) (by decide) (by decide) (by decide) (by decide)
    (fun lt h => Option.noConfusion h) (by decide) (by decide)

-- ---------------------------------------------------------------------------
-- C6
-- ---------------------------------------------------------------------------

/-- C6: (1) refreshing with a verified token whose type claim is not refresh
fails with InvalidTokenError against every database state, with the state
returned untouched — no session lookup can influence the outcome; (2) every
successful refresh returns the database unchanged (no new session, no
rotation) and the minted token is exactly an access token for the refreshed
user. -/
theorem C6_refresh_type_guard :
    (∀ (cfg : Config) (now : Nat) (t : SignedToken) (db : Db),
      t.secret = cfg.jwt.secret → now < t.exp → t.claims.typ ≠ .refresh →
      refreshAccessToken cfg now t db =
        (.error (.invalidToken "Expected a refresh token"), db)) ∧
    (∀ (cfg : Config) (now : Nat) (t : SignedToken) (db : Db)
        (tok : SignedToken) (user : User) (db' : Db),
      refreshAccessToken cfg now t db = (.ok (tok, user), db') →
      db' = db ∧ tok = generateAccessToken cfg now user ∧
        tok.claims.typ = .access) := by
  constructor
  · intro cfg now t db hsig hexp htyp
    unfold refreshAccessToken verifyToken jwtVerify
    rw [if_neg (by simp [hsig]), if_neg (by omega)]
    show (if t.claims.typ ≠ .refresh then _ else _) = _
    rw [if_pos htyp]
  · intro cfg now t db tok user db' h
    unfold refreshAccessToken at h
    split at h
    · simp at h
    · split at h
      · simp at h
      · split at h
        · simp at h
        · split at h
          · simp at h
          · split at h
            · simp at h
            · split at h
              · simp at h
              · rename_i decoded hv htyp session hsess hsexp u hu hstat
                have h2 : db = db' := congrArg Prod.snd h
                have h1 := congrArg Prod.fst h
                have h3 := Except.ok.inj h1
                have hg : generateAccessToken cfg now u = tok :=
                  congrArg Prod.fst h3
                have huser : u = user := congrArg Prod.snd h3
                subst huser
                refine ⟨h2.symm, hg.symm, ?_⟩
                rw [← hg]
                rfl

/-- C6 witness: at concrete states, an access token is rejected by the
refresh flow with no state change, and a successful refresh of alice's
session leaves the database unchanged and mints an access-type token. -/
theorem C6_refresh_type_guard_witness :
    refreshAccessToken cfgT 1000 tokAT dbSessT =
      (.error (.invalidToken "Expected a refresh token"), dbSessT) ∧
    (dbSessT = dbSessT ∧
      generateAccessToken cfgT 1000 aliceT =
        generateAccessToken cfgT 1000 aliceT ∧
      (generateAccessToken cfgT 1000 aliceT).claims.typ = .access) := by
  constructor
  · exact C6_refresh_type_guard.1 cfgT 1000 tokAT dbSessT (by decide)
      (by decide) (by decide)
  · exact C6_refresh_type_guard.2 cfgT 1000 tokRT dbSessT
      (generateAccessToken cfgT 1000 aliceT) aliceT dbSessT (by decide)

/-- findCredential depends only on the credentials table. -/
theorem findCredential_congr {db db' : Db}
    (h : db'.credentials = db.credentials) (uid : String) :
    findCredential db' uid = findCredential db uid := by
  unfold findCredential
  rw [h]

/-- findSessionByToken depends only on the sessions table. -/
theorem findSessionByToken_congr {db db' : Db}
    (h : db'.sessions = db.sessions) (t : SignedToken) :
    findSessionByToken db' t = findSessionByToken db t := by
  unfold findSessionByToken
  rw [h]

/-- updateLastLogin touches only the users table. -/
theorem updateLastLogin_tables {db db' : Db} {uid : String}
    {ip : Option String} {now : Nat}
    (h : updateLastLogin db uid ip now = some db') :
    db'.credentials = db.credentials ∧ db'.sessions = db.sessions := by
  unfold updateLastLogin at h
  split at h
  · have := Option.some.inj h
    rw [← this]
    exact ⟨rfl, rfl⟩
  · exact absurd h (by simp)

/-- createSession touches only the sessions table. -/
theorem createSession_tables {db db' : Db} {s : Session}
    (h : createSession db s = some db') :
    db'.credentials = db.credentials ∧ db'.users = db.users := by
  unfold createSession at h
  split at h
  · exact absurd h (by simp)
  · have := Option.some.inj h
    rw [← this]
    exact ⟨rfl, rfl⟩

/-- createUserWithPassword never touches the sessions table, and the returned
payload is the fresh PENDING_VERIFICATION user with id and tokens derived
from the input. -/
theorem createUserWithPassword_tables {db db' : Db}
    {data : CreateUserWithPasswordData} {user : User}
    (h : createUserWithPassword db data = some (user, db')) :
    db'.sessions = db.sessions ∧ user.id = data.id := by
  unfold createUserWithPassword at h
  split at h
  · exact absurd h (by simp)
  · have hp := Option.some.inj h
    have hu : _ = user := congrArg Prod.fst hp
    have hd : _ = db' := congrArg Prod.snd hp
    rw [← hd, ← hu]
    exact ⟨rfl, rfl⟩

/-- Characterization of a successful password check inside login (helper):
the success path resets the counter and clears the lock on the logged-in
user's credentials row. -/
theorem loginCheckPassword_ok (cfg : Config) (bc : String → String → Bool)
    (now : Nat) (inp : LoginInput) (db : Db) (user : User) (creds : Credential)
    (res : AuthResult) (db' : Db)
    (hUWC : findUserByEmailWithCredentials db inp.email =
      some (user, some creds))
    (hok : loginCheckPassword cfg bc now inp user creds db = (.ok res, db')) :
    res.user.id = user.id ∧
    ∃ creds', findCredential db' user.id = some (user.id, creds') ∧
      creds'.failedAttempts = 0 ∧ creds'.lockedUntil = none := by
  obtain ⟨hfe, hcred⟩ := findCredential_of_UWC hUWC
  obtain ⟨db1, hreset, hu1, hs1, ho1, hc1⟩ := resetFailedAttempts_spec hcred
  unfold loginCheckPassword at hok
  split at hok
  · dsimp only at hok
    split at hok
    · rename_i heqr
      rw [hreset] at heqr
      exact absurd heqr (by simp)
    · rename_i db1' heqr
      rw [hreset] at heqr
      have hdb1 : db1 = db1' := Option.some.inj heqr
      subst hdb1
      split at hok
      · exact absurd hok (by simp)
      · rename_i db2 hupd
        split at hok
        · exact absurd hok (by simp)
        · rename_i db3 hsess
          have hpair := Prod.mk.injEq .. ▸ hok
          have hres := congrArg Prod.fst hok
          have hdb3 : db3 = db' := congrArg Prod.snd hok
          have hres2 := Except.ok.inj hres
          obtain ⟨hcr2, _⟩ := updateLastLogin_tables hupd
          obtain ⟨hcr3, _⟩ := createSession_tables hsess
          subst hdb3
          refine ⟨by rw [← hres2], ?_⟩
          refine ⟨{ creds with failedAttempts := 0, lockedUntil := none },
            ?_, rfl, rfl⟩
          rw [findCredential_congr (hcr3.trans hcr2) user.id]
          exact hc1
  · split at hok
    · exact absurd hok (by simp)
    · rename_i p heqi
      split at hok
      · split at hok
        · exact absurd hok (by simp)
        · exact absurd hok (by simp)
      · exact absurd hok (by simp)

-- ---------------------------------------------------------------------------
-- C4
-- ---------------------------------------------------------------------------

/-- C4: whenever login succeeds — whatever the prior counter and lock state —
the post-state credentials row of the logged-in user has failed-attempt
counter 0 and lockedUntil null. -/
theorem C4_success_resets (cfg : Config) (bc : String → String → Bool)
    (now : Nat) (inp : LoginInput) (db : Db) (res : AuthResult) (db' : Db)
    (hok : login cfg bc now inp db = (.ok res, db')) :
    ∃ creds', findCredential db' res.user.id = some (res.user.id, creds') ∧
      creds'.failedAttempts = 0 ∧ creds'.lockedUntil = none := by
  unfold login at hok
  split at hok
  · exact absurd hok (by simp)
  · rename_i user credsOpt hUWC
    split at hok
    · exact absurd hok (by simp)
    · rename_i creds
      split at hok
      · exact absurd hok (by simp)
      · split at hok
        · exact absurd hok (by simp)
        · split at hok
          · rename_i lockT hcl
            split at hok
            · exact absurd hok (by simp)
            · obtain ⟨hid, creds', hrow, hfa, hlu⟩ :=
                loginCheckPassword_ok cfg bc now inp db user creds res db'
                  hUWC hok
              exact ⟨creds', by rw [hid]; exact hrow, hfa, hlu⟩
          · obtain ⟨hid, creds', hrow, hfa, hlu⟩ :=
              loginCheckPassword_ok cfg bc now inp db user creds res db'
                hUWC hok
            exact ⟨creds', by rw [hid]; exact hrow, hfa, hlu⟩

/-- C4 witness: alice's successful login at a prior counter of 4 and an
elapsed lock ends with counter 0 and no lock. -/
theorem C4_success_resets_witness :
    ∃ creds', findCredential loginOkT.2 (resultOrDefault loginOkT).user.id =
      some ((resultOrDefault loginOkT).user.id, creds') ∧
      creds'.failedAttempts = 0 ∧ creds'.lockedUntil = none :=
  C4_success_resets cfgT bcT 10 (inpT "pw") (dbT 4 (some 5))
    (resultOrDefault loginOkT) loginOkT.2 (by decide)

-- ---------------------------------------------------------------------------
-- C10
-- ---------------------------------------------------------------------------

/-- C10: register creates no Session row (the sessions table is unchanged),
so feeding the freshly minted refresh token — which verifies and has type
refresh — to the refresh flow before any later login fails with the
revoked-session UnauthorizedError, provided that token was not already
present as a session. -/
theorem C10_register_then_refresh (cfg : Config) (bh : String → String)
    (now now2 : Nat) (uid : String) (inp : RegisterInput) (db : Db)
    (res : AuthResult) (db1 : Db)
    (hreg : register cfg bh now uid inp db = (.ok res, db1))
    (hnos : findSessionByToken db res.tokens.refreshToken = none)
    (hfresh : now2 < res.tokens.refreshToken.exp) :
    db1.sessions = db.sessions ∧
    refreshAccessToken cfg now2 res.tokens.refreshToken db1 =
      (.error (.unauthorized "Session has been revoked"), db1) := by
  unfold register at hreg
  split at hreg
  · exact absurd hreg (by simp)
  · dsimp only at hreg
    split at hreg
    · exact absurd hreg (by simp)
    · rename_i user db1' hcreate
      have hres : (Except.ok ⟨user, generateTokenPair cfg now user⟩ :
            Except AuthError AuthResult) = Except.ok res :=
        congrArg Prod.fst hreg
      have hdb : db1' = db1 := congrArg Prod.snd hreg
      have hres2 := Except.ok.inj hres
      subst hdb
      obtain ⟨hsess, _⟩ := createUserWithPassword_tables hcreate
      refine ⟨hsess, ?_⟩
      rw [← hres2] at hfresh ⊢
      unfold refreshAccessToken verifyToken jwtVerify
      rw [if_neg (by simp [generateTokenPair, generateRefreshToken, jwtSign]),
        if_neg (by
          simp only [generateTokenPair, generateRefreshToken, jwtSign] at hfresh ⊢
          omega)]
      show (if (generateTokenPair cfg now user).refreshToken.claims.typ ≠
          .refresh then _ else _) = _
      rw [if_neg (by simp [generateTokenPair, generateRefreshToken, jwtSign])]
      rw [findSessionByToken_congr hsess]
      rw [← hres2] at hnos
      rw [hnos]

/-- C10 witness: the freshly registered user's refresh token is rejected as
revoked at time 1000, and registration left the sessions table empty. -/
theorem C10_register_then_refresh_witness :
    regOutT.2.sessions = dbEmptyT.sessions ∧
    refreshAccessToken cfgT 1000 (resultOrDefault regOutT).tokens.refreshToken
        regOutT.2 =
      (.error (.unauthorized "Session has been revoked"), regOutT.2) :=
  C10_register_then_refresh cfgT bhT 0 1000 "u1" regInpT dbEmptyT
    (resultOrDefault regOutT) regOutT.2 (by decide) (by decide) (by decide)

end DFBackend
